import Mathlib

/-!
# Verification of the yuzubot moderation bot (`src/main.py`)

This file is a shallow embedding of the message-processing core of the bot:
the counting helpers (`count_emoticons_in_message`, `count_personal_mentions`),
the per-message dispatch of `run_bot` (command handling, enablement gate,
broadcast-mention rule, stamp/mention thresholds), the per-batch loop with its
cursor update, and the per-room / per-cycle loop with its failure isolation.

External collaborators (the Chatwork HTTP client and the Supabase store) are
modelled at the call level: outgoing calls are recorded in an effect trace, an
oracle `ok : Effect → Bool` decides whether a `post_message` call succeeds or
raises (a `TransportError`), and fallible fetches are `Option`-valued
(`none` = the call raised).  `change_user_permission` in the source is a stub
that prints and returns `True`, so it is modelled as an always-succeeding call.
The Supabase table `roomid` is modelled as the list of its rows.
Timestamps are integer seconds (`Nat`); the source uses `time.time()` floats,
and every comparison the source performs on them is division/order arithmetic
that coincides on integral values.
-/

namespace Yuzubot

/-! ## Python string primitives -/

/-- Whitespace stripped by Python `str.strip()`. -/
def pySpace (c : Char) : Bool :=
  c = ' ' || c = '\t' || c = '\n' || c = '\r' || c = '\x0b' || c = '\x0c'

/-- Python `str.strip()`. -/
def pyStrip (s : String) : String :=
  ⟨((s.data.dropWhile pySpace).reverse.dropWhile pySpace).reverse⟩

/-- Does `pat` occur at the head of `s`? -/
def startsWithL : List Char → List Char → Bool
  | [], _ => true
  | _ :: _, [] => false
  | a :: as, b :: bs => a == b && startsWithL as bs

/-- `pat` occurs somewhere in `s` (Python `pat in s`). -/
def containsL (pat : List Char) : List Char → Bool
  | [] => startsWithL pat []
  | l@(_ :: rest) => startsWithL pat l || containsL pat rest

/-- Python `pat in s` on strings. -/
def pyContains (s pat : String) : Bool := containsL pat.data s.data

/-- Python `s.count(sub)` for nonempty `sub`: non-overlapping occurrences,
scanning left to right.  Fuel-structured so that the kernel can evaluate it;
`fuel = s.length` always suffices because every step consumes at least one
character. -/
def countOccFuel (sub : List Char) : Nat → List Char → Nat
  | 0, _ => 0
  | _ + 1, [] => 0
  | fuel + 1, c :: rest =>
    if startsWithL sub (c :: rest) then
      1 + countOccFuel sub fuel (List.drop (sub.length - 1) rest)
    else
      countOccFuel sub fuel rest

/-- Python `s.count(sub)` (for the nonempty patterns the bot uses). -/
def pyCount (s sub : String) : Nat := countOccFuel sub.data s.data.length s.data

/-- Try to match `pre ++ digits+ ++ "]"` at the head of `s`; return the length
of the match.  This is the anchored form of the regexes `\[STAMP:\d+\]` and
`\[To:\d+\]` with `pre` the literal prefix (digits are modelled as ASCII,
which is what every message the bot handles contains). -/
def tagMatchLen (pre s : List Char) : Option Nat :=
  if startsWithL pre s then
    let rest := List.drop pre.length s
    let ds := rest.takeWhile Char.isDigit
    match ds with
    | [] => none
    | _ :: _ =>
      match List.drop ds.length rest with
      | ']' :: _ => some (pre.length + ds.length + 1)
      | _ => none
  else none

/-- `len(re.findall(...))` for the tag patterns: scan left to right, count
non-overlapping leftmost matches. -/
def countTagFuel (pre : List Char) : Nat → List Char → Nat
  | 0, _ => 0
  | _ + 1, [] => 0
  | fuel + 1, c :: rest =>
    match tagMatchLen pre (c :: rest) with
    | some n => 1 + countTagFuel pre fuel (List.drop (n - 1) rest)
    | none => countTagFuel pre fuel rest

/-- `len(re.findall(r"\[STAMP:\d+\]", s))`. -/
def countStampTags (s : String) : Nat := countTagFuel "[STAMP:".data s.data.length s.data

/-- `len(re.findall(r"\[To:\d+\]", s))`. -/
def countToTags (s : String) : Nat := countTagFuel "[To:".data s.data.length s.data

/-! ## Counting helpers of `main.py` -/

/-- The emoticon list `ALL_EMOTICONS` of `main.py`, verbatim. -/
def ALL_EMOTICONS : List String := [
  ":)", ":(", ":D", "8-)", ":o", ";)", ";(", "(sweat)", ":|", ":*", ":p",
  "(blush)", ":^)", "|-)", "(inlove)", "]:)", "(talk)", "(yawn)", "(puke)",
  "8-|", "(emo)", ":#)", "(nod)", "(shake)", "(^^;)", "(whew)", "(clap)",
  "(bow)", "(roger)", "(flex)", "(dance)", ":/", "(gogo)", "(think)",
  "(please)", "(quick)", "(anger)", "(devil)", "(lightbulb)", "(*)", "(h)",
  "(F)", "(cracker)", "(eat)", "(^)", "(coffee)", "(beer)", "(handshake)", "(y)"
]

/-- `count_emoticons_in_message` of `main.py`: sum of the plain substring
counts of every emoticon in the list, plus the number of `[STAMP:<digits>]`
matches. -/
def count_emoticons_in_message (message_body : String) (emoticon_list : List String) : Nat :=
  (emoticon_list.foldl (fun count emoticon => count + pyCount message_body emoticon) 0)
    + countStampTags message_body

/-- `count_personal_mentions` of `main.py`: number of `[To:<digits>]` matches. -/
def count_personal_mentions (message_body : String) : Nat :=
  countToTags message_body

/-! ## Data model -/

/-- One entry of the list returned by `get_messages`. -/
structure Message where
  message_id : Nat
  account_id : Nat
  body : String
deriving Repr, DecidableEq

/-- One entry of `user_activity_counts[room_id][sender_id]`. -/
structure Counter where
  stamps : Nat
  mentions : Nat
  last_reset_time : Nat
deriving Repr, DecidableEq

/-- One entry of `user_roles_per_room`: the `account_id → role` dictionary
built from `get_room_members`, together with its `last_update_time`. -/
structure RoleSnap where
  roleOf : Nat → Option String
  last_update_time : Nat

/-- The mutable state of `run_bot`: the per-room cursor dictionary
`last_message_id_per_room` (absent keys read as `0` via `.get(room_id, 0)`,
so it is a total function), the membership snapshots `user_roles_per_room`,
the nested counter dictionary `user_activity_counts`, and the rows of the
Supabase table `roomid`. -/
structure BotState where
  lastMessageId : Nat → Nat
  roles : Nat → Option RoleSnap
  counters : Nat → Nat → Option Counter
  store : List Nat

/-- An outgoing Chatwork API call made by the bot. -/
inductive Effect where
  | changePermission (roomId accountId : Nat) (role : String)
  | postMessage (roomId : Nat) (body : String)
deriving Repr, DecidableEq

/-- The environment-derived thresholds. -/
structure Config where
  stampThreshold : Nat
  mentionThreshold : Nat
  resetIntervalHours : Nat

/-- Result of a processing step: resulting state, trace of attempted API
calls in order, and whether an uncaught exception escaped the step. -/
structure StepRes where
  st : BotState
  trace : List Effect
  err : Bool

/-- Write one counter entry (`user_activity_counts[roomId][userId] = c`). -/
def setCounter (st : BotState) (roomId userId : Nat) (c : Counter) : BotState :=
  { st with counters := fun r u =>
      if r = roomId ∧ u = userId then some c else st.counters r u }

/-! ## Message texts posted by the bot (verbatim from `main.py`) -/

def enabledNotice : String :=
  "[info][title]ボット有効化[/title]この部屋でのボットの監視を有効にしました。[/info]"

def alreadyEnabledNotice : String :=
  "[info][title]既に有効[/title]この部屋は既にボットの監視が有効です。[/info]"

def enableErrorNotice : String :=
  "[error][title]エラー[/title]ボットの有効化に失敗しました。[/error]"

def disabledNotice : String :=
  "[info][title]ボット無効化[/title]この部屋でのボットの監視を無効にしました。[/info]"

def disableErrorNotice : String :=
  "[error][title]エラー[/title]ボットの無効化に失敗しました。[/error]"

def permDeniedNotice : String :=
  "[info][title]権限エラー[/title]このコマンドは管理者のみ実行できます。[/info]"

def toallNotice (senderId : Nat) : String :=
  "[info][title]権限変更通知[/title][To:" ++ toString senderId ++
    "] さん、[toall] の多用を確認したため、この部屋でのあなたの権限を『閲覧のみ』に変更しました。[/info]"

def stampNotice (senderId : Nat) : String :=
  "[info][title]権限変更通知[/title][To:" ++ toString senderId ++
    "] さん、スタンプ・絵文字の多用を確認したため、この部屋でのあなたの権限を『閲覧のみ』に変更しました。[/info]"

def mentionNotice (senderId : Nat) : String :=
  "[info][title]権限変更通知[/title][To:" ++ toString senderId ++
    "] さん、個人メンションの多用を確認したため、この部屋でのあなたの権限を『閲覧のみ』に変更しました。[/info]"

/-! ## Per-message processing (the body of the `for message in new_messages` loop)

`ok e = false` means the API call `e` raises a `TransportError`.  Only
`post_message` can raise: `change_user_permission` is the stub that always
returns `True`, and the Supabase calls are modelled as infallible (no claim
involves `PersistenceError`). -/

/-- The `sender_role == 'admin'` branch of `/command OK` (flat `if`/`else` on
room membership in the store; the `try` block can only fail at the
`post_message` call, in which case the `except` posts the error notice, whose
own failure escapes). -/
def cmdOkAdmin (ok : Effect → Bool) (roomId : Nat) (st : BotState) : StepRes :=
  if roomId ∈ st.store then
    let e1 := Effect.postMessage roomId alreadyEnabledNotice
    if ok e1 then ⟨st, [e1], false⟩
    else
      let e2 := Effect.postMessage roomId enableErrorNotice
      ⟨st, [e1, e2], !(ok e2)⟩
  else
    let st1 := { st with store := st.store ++ [roomId] }
    let e1 := Effect.postMessage roomId enabledNotice
    if ok e1 then ⟨st1, [e1], false⟩
    else
      let e2 := Effect.postMessage roomId enableErrorNotice
      ⟨st1, [e1, e2], !(ok e2)⟩

/-- The `sender_role == 'admin'` branch of `/command NO`: unconditional
delete of the room's rows, then the disabled notice. -/
def cmdNoAdmin (ok : Effect → Bool) (roomId : Nat) (st : BotState) : StepRes :=
  let st1 := { st with store := st.store.filter (fun r => r != roomId) }
  let e1 := Effect.postMessage roomId disabledNotice
  if ok e1 then ⟨st1, [e1], false⟩
  else
    let e2 := Effect.postMessage roomId disableErrorNotice
    ⟨st1, [e1, e2], !(ok e2)⟩

/-- The non-admin branch of either command: the permission-denied notice,
posted outside any `try`, so its failure escapes. -/
def postDenied (ok : Effect → Bool) (roomId : Nat) (st : BotState) : StepRes :=
  let e := Effect.postMessage roomId permDeniedNotice
  ⟨st, [e], !(ok e)⟩

/-- Steps 275-285 of `main.py`: add the personal-mention count, then the
mention-threshold action.  `c` is the sender's counter as most recently
written, `tr` the trace accumulated earlier in this message. -/
def mentionStep (cfg : Config) (ok : Effect → Bool) (roomId sender : Nat)
    (body : String) (st : BotState) (c : Counter) (tr : List Effect) : StepRes :=
  let c2 : Counter := { c with mentions := c.mentions + count_personal_mentions body }
  let st2 := setCounter st roomId sender c2
  if c2.mentions ≥ cfg.mentionThreshold then
    let eN := Effect.postMessage roomId (mentionNotice sender)
    if ok eN then
      ⟨setCounter st2 roomId sender { c2 with mentions := 0 },
       tr ++ [Effect.changePermission roomId sender "readonly", eN], false⟩
    else
      ⟨st2, tr ++ [Effect.changePermission roomId sender "readonly", eN], true⟩
  else ⟨st2, tr, false⟩

/-- Lines 263-285 of `main.py`: add the stamp/emoticon count, the
stamp-threshold action, then the mention step.  The counter reset to zero
happens after the notification post, so a failing post leaves the counter
incremented but not reset. -/
def stampStep (cfg : Config) (ok : Effect → Bool) (roomId sender : Nat)
    (body : String) (st : BotState) (c : Counter) : StepRes :=
  let c2 : Counter := { c with stamps := c.stamps + count_emoticons_in_message body ALL_EMOTICONS }
  let st2 := setCounter st roomId sender c2
  if c2.stamps ≥ cfg.stampThreshold then
    let eN := Effect.postMessage roomId (stampNotice sender)
    if ok eN then
      let c3 : Counter := { c2 with stamps := 0 }
      mentionStep cfg ok roomId sender body (setCounter st2 roomId sender c3) c3
        [Effect.changePermission roomId sender "readonly", eN]
    else
      ⟨st2, [Effect.changePermission roomId sender "readonly", eN], true⟩
  else mentionStep cfg ok roomId sender body st2 c2 []

/-- Lines 239-285 of `main.py`: lazy counter creation, the reset-window
check, the `[toall]` broadcast rule, then stamp and mention counting. -/
def moderation (cfg : Config) (ok : Effect → Bool) (currentTime : Nat)
    (roomId sender : Nat) (sender_role body : String) (st : BotState) : StepRes :=
  let c0 := (st.counters roomId sender).getD ⟨0, 0, currentTime⟩
  let c1 := if (currentTime - c0.last_reset_time) / 3600 ≥ cfg.resetIntervalHours
            then (⟨0, 0, currentTime⟩ : Counter) else c0
  let st1 := setCounter st roomId sender c1
  if pyContains body "[toall]" then
    if sender_role = "member" then
      let eN := Effect.postMessage roomId (toallNotice sender)
      ⟨st1, [Effect.changePermission roomId sender "readonly", eN], !(ok eN)⟩
    else ⟨st1, [], false⟩
  else stampStep cfg ok roomId sender body st1 c1

/-- One iteration of the `for message in new_messages` loop (lines 184-285):
role lookup with `'unknown'` default, command dispatch, enablement gate,
then moderation. -/
def processMessage (cfg : Config) (ok : Effect → Bool) (currentTime : Nat)
    (enabled : List Nat) (roomId : Nat) (snap : Nat → Option String)
    (st : BotState) (msg : Message) : StepRes :=
  let sender_role := (snap msg.account_id).getD "unknown"
  if pyStrip msg.body = "/command OK" then
    if sender_role = "admin" then cmdOkAdmin ok roomId st
    else postDenied ok roomId st
  else if pyStrip msg.body = "/command NO" then
    if sender_role = "admin" then cmdNoAdmin ok roomId st
    else postDenied ok roomId st
  else if roomId ∈ enabled then
    moderation cfg ok currentTime roomId msg.account_id sender_role msg.body st
  else ⟨st, [], false⟩

/-! ## Per-batch, per-room, per-cycle processing -/

/-- The whole `for message in new_messages` loop.  An uncaught exception in
one message stops the loop there (later messages are not processed). -/
def processBatch (cfg : Config) (ok : Effect → Bool) (currentTime : Nat)
    (enabled : List Nat) (roomId : Nat) (snap : Nat → Option String) :
    BotState → List Message → StepRes
  | st, [] => ⟨st, [], false⟩
  | st, m :: ms =>
    let r := processMessage cfg ok currentTime enabled roomId snap st m
    if r.err then ⟨r.st, r.trace, true⟩
    else
      let rest := processBatch cfg ok currentTime enabled roomId snap r.st ms
      ⟨rest.st, r.trace ++ rest.trace, rest.err⟩

/-- The membership dictionary the room loop reads at line 194
(`user_roles_per_room[room_id]`); total because the refresh step guarantees
presence before any message is processed. -/
def roomSnap (st : BotState) (roomId : Nat) : Nat → Option String :=
  match st.roles roomId with
  | some s => s.roleOf
  | none => fun _ => none

/-- Lines 176-288: fetch the new messages (a raised fetch is `none`, caught
and the room skipped), run the batch, and — only when the batch ran without
an uncaught exception — set the cursor to the id of the last message
(`new_messages[-1]['message_id'] if new_messages else current`). -/
def fetchAndProcess (cfg : Config) (ok : Effect → Bool) (currentTime : Nat)
    (enabled : List Nat) (fetchMessages : Nat → Nat → Option (List Message))
    (st : BotState) (roomId : Nat) : StepRes :=
  let lastId := st.lastMessageId roomId
  match fetchMessages roomId lastId with
  | none => ⟨st, [], false⟩
  | some msgs =>
    if msgs.isEmpty then ⟨st, [], false⟩
    else
      let res := processBatch cfg ok currentTime enabled roomId (roomSnap st roomId) st msgs
      if res.err then res
      else
        ⟨{ res.st with lastMessageId := fun r =>
             if r = roomId then
               match msgs.getLast? with
               | some m => m.message_id
               | none => lastId
             else res.st.lastMessageId r },
         res.trace, false⟩

/-- Is the membership snapshot for `roomId` missing or at least one hour
old (lines 165-166)? -/
def refreshDue (currentTime : Nat) (st : BotState) (roomId : Nat) : Bool :=
  match st.roles roomId with
  | none => true
  | some snap => decide ((currentTime - snap.last_update_time) / 3600 ≥ 1)

/-- The dictionary `{member['account_id']: member['role'] for member in
members_data}` (later entries overwrite earlier ones). -/
def buildRoleDict (mems : List (Nat × String)) : Nat → Option String :=
  mems.foldl (fun acc m => fun a => if a = m.1 then some m.2 else acc a) (fun _ => none)

/-- One iteration of the `for room_id in MONITORED_ROOM_IDS` loop (lines
163-288): refresh the membership snapshot when due (a raised refresh is
`none`: caught, room skipped, snapshot and cursor untouched), then fetch and
process the room's messages. -/
def processRoom (cfg : Config) (ok : Effect → Bool) (currentTime : Nat)
    (enabled : List Nat) (fetchMembers : Nat → Option (List (Nat × String)))
    (fetchMessages : Nat → Nat → Option (List Message))
    (st : BotState) (roomId : Nat) : StepRes :=
  if refreshDue currentTime st roomId then
    match fetchMembers roomId with
    | none => ⟨st, [], false⟩
    | some mems =>
      let st1 := { st with roles := fun r =>
        if r = roomId then some ⟨buildRoleDict mems, currentTime⟩ else st.roles r }
      fetchAndProcess cfg ok currentTime enabled fetchMessages st1 roomId
    else fetchAndProcess cfg ok currentTime enabled fetchMessages st roomId

/-- The room loop of one cycle.  An exception that escapes a room's batch
escapes the whole `for` loop: the remaining rooms of the cycle are not
processed (it is caught by the cycle-level `except` at line 290). -/
def runRooms (cfg : Config) (ok : Effect → Bool) (currentTime : Nat)
    (enabled : List Nat) (fetchMembers : Nat → Option (List (Nat × String)))
    (fetchMessages : Nat → Nat → Option (List Message)) :
    BotState → List Nat → StepRes
  | st, [] => ⟨st, [], false⟩
  | st, r :: rs =>
    let res := processRoom cfg ok currentTime enabled fetchMembers fetchMessages st r
    if res.err then res
    else
      let rest := runRooms cfg ok currentTime enabled fetchMembers fetchMessages res.st rs
      ⟨rest.st, res.trace ++ rest.trace, rest.err⟩

/-- One iteration of the `while True` loop (lines 153-288): read the
enabled-room set from the store once, then run every monitored room against
that snapshot. -/
def runCycle (cfg : Config) (ok : Effect → Bool) (currentTime : Nat)
    (fetchMembers : Nat → Option (List (Nat × String)))
    (fetchMessages : Nat → Nat → Option (List Message))
    (rooms : List Nat) (st : BotState) : StepRes :=
  runRooms cfg ok currentTime st.store fetchMembers fetchMessages st rooms

/-! ## Preservation lemmas

Message processing never touches the cursor dictionary or the membership
snapshots; the command branches never touch the counters; moderation never
touches the store. -/

theorem setCounter_lastMessageId (st : BotState) (roomId userId : Nat) (c : Counter) :
    (setCounter st roomId userId c).lastMessageId = st.lastMessageId := rfl

theorem setCounter_roles (st : BotState) (roomId userId : Nat) (c : Counter) :
    (setCounter st roomId userId c).roles = st.roles := rfl

theorem setCounter_store (st : BotState) (roomId userId : Nat) (c : Counter) :
    (setCounter st roomId userId c).store = st.store := rfl

theorem cmdOkAdmin_lastMessageId (ok : Effect → Bool) (roomId : Nat) (st : BotState) :
    (cmdOkAdmin ok roomId st).st.lastMessageId = st.lastMessageId := by
  unfold cmdOkAdmin; dsimp only; repeat' split
  all_goals rfl

theorem cmdOkAdmin_roles (ok : Effect → Bool) (roomId : Nat) (st : BotState) :
    (cmdOkAdmin ok roomId st).st.roles = st.roles := by
  unfold cmdOkAdmin; dsimp only; repeat' split
  all_goals rfl

theorem cmdOkAdmin_counters (ok : Effect → Bool) (roomId : Nat) (st : BotState) :
    (cmdOkAdmin ok roomId st).st.counters = st.counters := by
  unfold cmdOkAdmin; dsimp only; repeat' split
  all_goals rfl

theorem cmdNoAdmin_lastMessageId (ok : Effect → Bool) (roomId : Nat) (st : BotState) :
    (cmdNoAdmin ok roomId st).st.lastMessageId = st.lastMessageId := by
  unfold cmdNoAdmin; dsimp only; repeat' split
  all_goals rfl

theorem cmdNoAdmin_roles (ok : Effect → Bool) (roomId : Nat) (st : BotState) :
    (cmdNoAdmin ok roomId st).st.roles = st.roles := by
  unfold cmdNoAdmin; dsimp only; repeat' split
  all_goals rfl

theorem cmdNoAdmin_counters (ok : Effect → Bool) (roomId : Nat) (st : BotState) :
    (cmdNoAdmin ok roomId st).st.counters = st.counters := by
  unfold cmdNoAdmin; dsimp only; repeat' split
  all_goals rfl

theorem postDenied_st (ok : Effect → Bool) (roomId : Nat) (st : BotState) :
    (postDenied ok roomId st).st = st := rfl

theorem mentionStep_lastMessageId (cfg : Config) (ok : Effect → Bool)
    (roomId sender : Nat) (body : String) (st : BotState) (c : Counter) (tr : List Effect) :
    (mentionStep cfg ok roomId sender body st c tr).st.lastMessageId = st.lastMessageId := by
  unfold mentionStep; dsimp only; repeat' split
  all_goals rfl

theorem mentionStep_roles (cfg : Config) (ok : Effect → Bool)
    (roomId sender : Nat) (body : String) (st : BotState) (c : Counter) (tr : List Effect) :
    (mentionStep cfg ok roomId sender body st c tr).st.roles = st.roles := by
  unfold mentionStep; dsimp only; repeat' split
  all_goals rfl

theorem mentionStep_store (cfg : Config) (ok : Effect → Bool)
    (roomId sender : Nat) (body : String) (st : BotState) (c : Counter) (tr : List Effect) :
    (mentionStep cfg ok roomId sender body st c tr).st.store = st.store := by
  unfold mentionStep; dsimp only; repeat' split
  all_goals rfl

theorem stampStep_lastMessageId (cfg : Config) (ok : Effect → Bool)
    (roomId sender : Nat) (body : String) (st : BotState) (c : Counter) :
    (stampStep cfg ok roomId sender body st c).st.lastMessageId = st.lastMessageId := by
  unfold stampStep; dsimp only
  repeat' split
  all_goals simp [mentionStep_lastMessageId, setCounter_lastMessageId]

theorem stampStep_roles (cfg : Config) (ok : Effect → Bool)
    (roomId sender : Nat) (body : String) (st : BotState) (c : Counter) :
    (stampStep cfg ok roomId sender body st c).st.roles = st.roles := by
  unfold stampStep; dsimp only
  repeat' split
  all_goals simp [mentionStep_roles, setCounter_roles]

theorem stampStep_store (cfg : Config) (ok : Effect → Bool)
    (roomId sender : Nat) (body : String) (st : BotState) (c : Counter) :
    (stampStep cfg ok roomId sender body st c).st.store = st.store := by
  unfold stampStep; dsimp only
  repeat' split
  all_goals simp [mentionStep_store, setCounter_store]

theorem moderation_lastMessageId (cfg : Config) (ok : Effect → Bool) (currentTime : Nat)
    (roomId sender : Nat) (sender_role body : String) (st : BotState) :
    (moderation cfg ok currentTime roomId sender sender_role body st).st.lastMessageId
      = st.lastMessageId := by
  unfold moderation; dsimp only
  repeat' split
  all_goals simp [stampStep_lastMessageId, setCounter_lastMessageId]

theorem moderation_roles (cfg : Config) (ok : Effect → Bool) (currentTime : Nat)
    (roomId sender : Nat) (sender_role body : String) (st : BotState) :
    (moderation cfg ok currentTime roomId sender sender_role body st).st.roles = st.roles := by
  unfold moderation; dsimp only
  repeat' split
  all_goals simp [stampStep_roles, setCounter_roles]

theorem moderation_store (cfg : Config) (ok : Effect → Bool) (currentTime : Nat)
    (roomId sender : Nat) (sender_role body : String) (st : BotState) :
    (moderation cfg ok currentTime roomId sender sender_role body st).st.store = st.store := by
  unfold moderation; dsimp only
  repeat' split
  all_goals simp [stampStep_store, setCounter_store]

theorem processMessage_lastMessageId (cfg : Config) (ok : Effect → Bool) (currentTime : Nat)
    (enabled : List Nat) (roomId : Nat) (snap : Nat → Option String)
    (st : BotState) (msg : Message) :
    (processMessage cfg ok currentTime enabled roomId snap st msg).st.lastMessageId
      = st.lastMessageId := by
  unfold processMessage; dsimp only
  repeat' split
  all_goals simp [cmdOkAdmin_lastMessageId, cmdNoAdmin_lastMessageId, postDenied_st,
    moderation_lastMessageId]

theorem processMessage_roles (cfg : Config) (ok : Effect → Bool) (currentTime : Nat)
    (enabled : List Nat) (roomId : Nat) (snap : Nat → Option String)
    (st : BotState) (msg : Message) :
    (processMessage cfg ok currentTime enabled roomId snap st msg).st.roles = st.roles := by
  unfold processMessage; dsimp only
  repeat' split
  all_goals simp [cmdOkAdmin_roles, cmdNoAdmin_roles, postDenied_st, moderation_roles]

theorem processBatch_lastMessageId (cfg : Config) (ok : Effect → Bool) (currentTime : Nat)
    (enabled : List Nat) (roomId : Nat) (snap : Nat → Option String)
    (st : BotState) (msgs : List Message) :
    (processBatch cfg ok currentTime enabled roomId snap st msgs).st.lastMessageId
      = st.lastMessageId := by
  induction msgs generalizing st with
  | nil => rfl
  | cons m ms ih =>
    unfold processBatch; dsimp only
    split
    · simp [processMessage_lastMessageId]
    · simp [ih, processMessage_lastMessageId]

theorem processBatch_roles (cfg : Config) (ok : Effect → Bool) (currentTime : Nat)
    (enabled : List Nat) (roomId : Nat) (snap : Nat → Option String)
    (st : BotState) (msgs : List Message) :
    (processBatch cfg ok currentTime enabled roomId snap st msgs).st.roles = st.roles := by
  induction msgs generalizing st with
  | nil => rfl
  | cons m ms ih =>
    unfold processBatch; dsimp only
    split
    · simp [processMessage_roles]
    · simp [ih, processMessage_roles]

/-! ## Further helpers for the claims -/

/-- The oracle under which every outgoing call succeeds. -/
def okAll : Effect → Bool := fun _ => true

/-- Is the effect a `change_user_permission` call? -/
def isPermChange : Effect → Bool
  | .changePermission _ _ _ => true
  | .postMessage _ _ => false

theorem cmdOkAdmin_trace_posts (ok : Effect → Bool) (roomId : Nat) (st : BotState) :
    ∀ e ∈ (cmdOkAdmin ok roomId st).trace, isPermChange e = false := by
  unfold cmdOkAdmin; dsimp only; repeat' split
  all_goals simp [isPermChange]

theorem cmdNoAdmin_trace_posts (ok : Effect → Bool) (roomId : Nat) (st : BotState) :
    ∀ e ∈ (cmdNoAdmin ok roomId st).trace, isPermChange e = false := by
  unfold cmdNoAdmin; dsimp only; repeat' split
  all_goals simp [isPermChange]

theorem postDenied_trace_posts (ok : Effect → Bool) (roomId : Nat) (st : BotState) :
    ∀ e ∈ (postDenied ok roomId st).trace, isPermChange e = false := by
  unfold postDenied; simp [isPermChange]

/-- A message in a room outside the cycle's enabled-room snapshot never
touches the counters and never issues a permission change, whatever it does
to the store. -/
theorem processMessage_gated (cfg : Config) (ok : Effect → Bool) (currentTime : Nat)
    (enabled : List Nat) (roomId : Nat) (snap : Nat → Option String)
    (st : BotState) (msg : Message) (hgate : roomId ∉ enabled) :
    (processMessage cfg ok currentTime enabled roomId snap st msg).st.counters = st.counters
    ∧ ∀ e ∈ (processMessage cfg ok currentTime enabled roomId snap st msg).trace,
        isPermChange e = false := by
  constructor
  · unfold processMessage; dsimp only
    repeat' split
    all_goals simp_all [cmdOkAdmin_counters, cmdNoAdmin_counters, postDenied_st]
  · unfold processMessage; dsimp only
    repeat' split
    all_goals first
      | exact cmdOkAdmin_trace_posts ok roomId st
      | exact cmdNoAdmin_trace_posts ok roomId st
      | exact postDenied_trace_posts ok roomId st
      | exact absurd (by assumption) hgate
      | simp

/-- Folding addition over a list starting from an accumulator is the
accumulator plus the sum of the images: connects the `foldl` in
`count_emoticons_in_message` with a per-token sum. -/
theorem foldl_add_count (f : String → Nat) (l : List String) (acc : Nat) :
    l.foldl (fun a e => a + f e) acc = acc + (l.map f).sum := by
  induction l generalizing acc with
  | nil => simp
  | cons e es ih => simp [ih, Nat.add_assoc]

/-- C6.  Counting is exact substring/pattern counting: for every body the
stamp increment of a message equals the sum, over the 48 emoticon tokens, of
the token's non-overlapping substring occurrence count, plus the number of
`[STAMP:<digits>]` regex matches; the mention increment equals the number of
`[To:<digits>]` regex matches.  On the spec's concrete examples: a body with
exactly 3 occurrences of `(nod)` and 2 of `[STAMP:5]` counts 5 stamps, and a
body with two `[To:123]` tags counts 2 mentions. -/
theorem counting_exact_C6 (body : String) :
    count_emoticons_in_message body ALL_EMOTICONS
        = (ALL_EMOTICONS.map (fun e => pyCount body e)).sum + countStampTags body
    ∧ count_personal_mentions body = countToTags body
    ∧ count_emoticons_in_message "(nod) (nod) (nod) [STAMP:5][STAMP:5]" ALL_EMOTICONS = 5
    ∧ count_personal_mentions "[To:123] hi [To:123]" = 2 := by
  refine ⟨?_, rfl, by decide, by decide⟩
  unfold count_emoticons_in_message
  rw [foldl_add_count]
  simp

/-- C5.  A message whose trimmed body is exactly `/command OK` or
`/command NO` stops at the command handler and never changes any activity
counter, whatever the enablement state.  In a room absent from the
enabled-room snapshot a non-command message is skipped entirely (no state
change, no API call), while an admin command is still honored — the command
dispatch (lines 201-231) runs before the enablement gate (line 234), so an
admin's `/command OK` in a disabled room still inserts the room's record. -/
theorem commands_before_gate_C5 (cfg : Config) (ok : Effect → Bool) (currentTime : Nat)
    (enabled : List Nat) (roomId : Nat) (snap : Nat → Option String)
    (st : BotState) (msg : Message) :
    (pyStrip msg.body = "/command OK" ∨ pyStrip msg.body = "/command NO" →
      (processMessage cfg ok currentTime enabled roomId snap st msg).st.counters = st.counters)
    ∧ (roomId ∉ enabled → pyStrip msg.body ≠ "/command OK" → pyStrip msg.body ≠ "/command NO" →
        processMessage cfg ok currentTime enabled roomId snap st msg = ⟨st, [], false⟩)
    ∧ (roomId ∉ enabled → pyStrip msg.body = "/command OK" →
        (snap msg.account_id).getD "unknown" = "admin" → roomId ∉ st.store →
        (processMessage cfg ok currentTime enabled roomId snap st msg).st.store
          = st.store ++ [roomId]) := by
  refine ⟨?_, ?_, ?_⟩
  · rintro (h | h)
    · unfold processMessage; dsimp only
      rw [if_pos h]
      split <;> simp [cmdOkAdmin_counters, postDenied_st]
    · unfold processMessage; dsimp only
      rw [if_neg (by rw [h]; decide), if_pos h]
      split <;> simp [cmdNoAdmin_counters, postDenied_st]
  · intro hgate h1 h2
    simp [processMessage, h1, h2, hgate]
  · intro hgate h hadmin habs
    simp only [processMessage, h, hadmin]
    norm_num
    unfold cmdOkAdmin; dsimp only
    rw [if_neg habs]
    split <;> rfl

/-- C9.  The enablement gate is evaluated against the `enabled` list the
cycle read once at its start, not against the live store: for a room outside
that snapshot, no message of the batch — including the ones that follow a
successful admin `/command OK`, which does change the store mid-batch —
touches any activity counter or issues any permission change. -/
theorem gate_snapshot_C9 (cfg : Config) (ok : Effect → Bool) (currentTime : Nat)
    (enabled : List Nat) (roomId : Nat) (snap : Nat → Option String)
    (hgate : roomId ∉ enabled) (msgs : List Message) (st : BotState) :
    (processBatch cfg ok currentTime enabled roomId snap st msgs).st.counters = st.counters
    ∧ ∀ e ∈ (processBatch cfg ok currentTime enabled roomId snap st msgs).trace,
        isPermChange e = false := by
  induction msgs generalizing st with
  | nil => exact ⟨rfl, by simp [processBatch]⟩
  | cons m ms ih =>
    obtain ⟨hc, ht⟩ := processMessage_gated cfg ok currentTime enabled roomId snap st m hgate
    unfold processBatch; dsimp only
    split
    · exact ⟨hc, ht⟩
    · obtain ⟨hc2, ht2⟩ :=
        ih (processMessage cfg ok currentTime enabled roomId snap st m).st
      refine ⟨by rw [hc2, hc], ?_⟩
      intro e he
      rcases List.mem_append.mp he with h | h
      · exact ht e h
      · exact ht2 e h

/-- C7.  `/command OK` is idempotent on the store: sent by an admin in a room
with no record it inserts the record and posts the enabled notice; sent again
it leaves the store unchanged (no duplicate row) and posts the
"already enabled" notice.  `/command NO` by an admin in a room with no
record succeeds: the unconditional delete removes nothing, the normal
disabled notice is posted, and no error escapes. -/
theorem enable_idempotent_C7 (cfg : Config) (currentTime : Nat) (enabled : List Nat)
    (roomId : Nat) (snap : Nat → Option String) (st : BotState) (msg : Message)
    (hadmin : (snap msg.account_id).getD "unknown" = "admin")
    (hok : pyStrip msg.body = "/command OK") (habs : roomId ∉ st.store) :
    (processMessage cfg okAll currentTime enabled roomId snap st msg).st.store
        = st.store ++ [roomId]
    ∧ (processMessage cfg okAll currentTime enabled roomId snap st msg).trace
        = [Effect.postMessage roomId enabledNotice]
    ∧ (processMessage cfg okAll currentTime enabled roomId snap
          (processMessage cfg okAll currentTime enabled roomId snap st msg).st msg).st.store
        = (processMessage cfg okAll currentTime enabled roomId snap st msg).st.store
    ∧ (processMessage cfg okAll currentTime enabled roomId snap
          (processMessage cfg okAll currentTime enabled roomId snap st msg).st msg).trace
        = [Effect.postMessage roomId alreadyEnabledNotice]
    ∧ ∀ msgN : Message, pyStrip msgN.body = "/command NO" →
        (snap msgN.account_id).getD "unknown" = "admin" →
        (processMessage cfg okAll currentTime enabled roomId snap st msgN).st.store = st.store
        ∧ (processMessage cfg okAll currentTime enabled roomId snap st msgN).trace
            = [Effect.postMessage roomId disabledNotice]
        ∧ (processMessage cfg okAll currentTime enabled roomId snap st msgN).err = false := by
  have hpm1 : processMessage cfg okAll currentTime enabled roomId snap st msg
      = ⟨{ st with store := st.store ++ [roomId] },
         [Effect.postMessage roomId enabledNotice], false⟩ := by
    simp only [processMessage, hok, hadmin]
    norm_num
    unfold cmdOkAdmin; dsimp only
    rw [if_neg habs]
    simp [okAll]
  have hmem : roomId ∈ st.store ++ [roomId] := by simp
  have hpm2 : processMessage cfg okAll currentTime enabled roomId snap
      ({ st with store := st.store ++ [roomId] } : BotState) msg
      = ⟨{ st with store := st.store ++ [roomId] },
         [Effect.postMessage roomId alreadyEnabledNotice], false⟩ := by
    simp only [processMessage, hok, hadmin]
    norm_num
    unfold cmdOkAdmin; dsimp only
    rw [if_pos hmem]
    simp [okAll]
  refine ⟨by rw [hpm1], by rw [hpm1], by rw [hpm1, hpm2], by rw [hpm1, hpm2], ?_⟩
  intro msgN hno hadminN
  have hfil : st.store.filter (fun r => r != roomId) = st.store := by
    rw [List.filter_eq_self]
    intro a ha
    simp only [bne_iff_ne, ne_eq]
    exact fun he => habs (he ▸ ha)
  have hpmN : processMessage cfg okAll currentTime enabled roomId snap st msgN
      = ⟨{ st with store := st.store.filter (fun r => r != roomId) },
         [Effect.postMessage roomId disabledNotice], false⟩ := by
    simp only [processMessage, hno, hadminN]
    norm_num
    unfold cmdNoAdmin; dsimp only
    simp [okAll]
  rw [hpmN, hfil]
  exact ⟨rfl, rfl, rfl⟩

/-- C8.  If the membership refresh for a room is due and the
`get_room_members` call raises, the room is skipped for this cycle with the
whole state unmodified — the previously cached role snapshot is retained,
the cursor is untouched, no API call is made, no error escapes — and the
cycle continues with the other rooms exactly as if the failed room were not
in the list. -/
theorem refresh_failure_isolation_C8 (cfg : Config) (ok : Effect → Bool) (currentTime : Nat)
    (enabled : List Nat) (fetchMembers : Nat → Option (List (Nat × String)))
    (fetchMessages : Nat → Nat → Option (List Message)) (st : BotState) (roomId : Nat)
    (hdue : refreshDue currentTime st roomId = true)
    (hfail : fetchMembers roomId = none) :
    processRoom cfg ok currentTime enabled fetchMembers fetchMessages st roomId
        = ⟨st, [], false⟩
    ∧ ∀ rs, runRooms cfg ok currentTime enabled fetchMembers fetchMessages st (roomId :: rs)
        = runRooms cfg ok currentTime enabled fetchMembers fetchMessages st rs := by
  have h1 : processRoom cfg ok currentTime enabled fetchMembers fetchMessages st roomId
      = ⟨st, [], false⟩ := by
    unfold processRoom
    rw [if_pos hdue, hfail]
  refine ⟨h1, fun rs => ?_⟩
  conv_lhs => unfold runRooms
  rw [h1]
  simp

/-- Writing back the value a key already holds does not change the counter
dictionary. -/
theorem setCounter_self (st : BotState) (roomId u : Nat) (c : Counter)
    (hc : st.counters roomId u = some c) : setCounter st roomId u c = st := by
  have hmap : (fun r v => if r = roomId ∧ v = u then some c else st.counters r v)
      = st.counters := by
    funext r v
    split
    · rename_i hrv
      obtain ⟨rfl, rfl⟩ := hrv
      exact hc.symm
    · rfl
  unfold setCounter
  rw [hmap]

/-- C4.  Broadcast-mention rule, for a non-command message in an enabled room
whose body contains the literal `[toall]` and whose sender already has a
counter inside its reset window: a `member`-role sender is downgraded to
read-only and the notification naming the sender (`toallNotice`, which
carries `[To:<sender>]`) is posted, with no stamp or mention counting for the
message (the state is unchanged); an `admin`-role sender triggers no call and
no counting at all. -/
theorem broadcast_rule_C4 (cfg : Config) (currentTime : Nat)
    (enabled : List Nat) (roomId : Nat) (snap : Nat → Option String)
    (st : BotState) (msg : Message) (c : Counter)
    (h1 : pyStrip msg.body ≠ "/command OK") (h2 : pyStrip msg.body ≠ "/command NO")
    (hen : roomId ∈ enabled) (hto : pyContains msg.body "[toall]" = true)
    (hc : st.counters roomId msg.account_id = some c)
    (hfresh : (currentTime - c.last_reset_time) / 3600 < cfg.resetIntervalHours) :
    ((snap msg.account_id).getD "unknown" = "member" →
      processMessage cfg okAll currentTime enabled roomId snap st msg
        = ⟨st, [Effect.changePermission roomId msg.account_id "readonly",
               Effect.postMessage roomId (toallNotice msg.account_id)], false⟩)
    ∧ ((snap msg.account_id).getD "unknown" = "admin" →
      processMessage cfg okAll currentTime enabled roomId snap st msg
        = ⟨st, [], false⟩) := by
  have hbase : ∀ concl : StepRes → Prop,
      (concl (moderation cfg okAll currentTime roomId msg.account_id
        ((snap msg.account_id).getD "unknown") msg.body st)) →
      concl (processMessage cfg okAll currentTime enabled roomId snap st msg) := by
    intro concl hconcl
    unfold processMessage; dsimp only
    rw [if_neg h1, if_neg h2, if_pos hen]
    exact hconcl
  constructor
  · intro hrole
    refine hbase (fun r => r = _) ?_
    unfold moderation; dsimp only
    simp only [hc, Option.getD_some]
    rw [if_neg (show ¬((currentTime - c.last_reset_time) / 3600 ≥ cfg.resetIntervalHours)
          from by omega),
      if_pos hto, if_pos hrole, setCounter_self st roomId msg.account_id c hc]
    rfl
  · intro hrole
    refine hbase (fun r => r = _) ?_
    unfold moderation; dsimp only
    simp only [hc, Option.getD_some]
    rw [if_neg (show ¬((currentTime - c.last_reset_time) / 3600 ≥ cfg.resetIntervalHours)
          from by omega),
      if_pos hto, if_neg (show ¬((snap msg.account_id).getD "unknown" = "member")
          from by rw [hrole]; decide),
      setCounter_self st roomId msg.account_id c hc]

/-- C10.  For a non-command message in an enabled room whose body contains
`[toall]` and whose sender's role is neither `member` nor `admin` (e.g. a
sender absent from the membership snapshot, which defaults to `unknown`),
no permission change and no notification are issued and nothing is counted:
the `[toall]` branch skips counting for every non-member role, not only for
admins. -/
theorem broadcast_unknown_role_C10 (cfg : Config) (currentTime : Nat)
    (enabled : List Nat) (roomId : Nat) (snap : Nat → Option String)
    (st : BotState) (msg : Message) (c : Counter)
    (h1 : pyStrip msg.body ≠ "/command OK") (h2 : pyStrip msg.body ≠ "/command NO")
    (hen : roomId ∈ enabled) (hto : pyContains msg.body "[toall]" = true)
    (hc : st.counters roomId msg.account_id = some c)
    (hfresh : (currentTime - c.last_reset_time) / 3600 < cfg.resetIntervalHours)
    (hrole1 : (snap msg.account_id).getD "unknown" ≠ "member")
    (_hrole2 : (snap msg.account_id).getD "unknown" ≠ "admin") :
    processMessage cfg okAll currentTime enabled roomId snap st msg
      = ⟨st, [], false⟩ := by
  unfold processMessage; dsimp only
  rw [if_neg h1, if_neg h2, if_pos hen]
  unfold moderation; dsimp only
  simp only [hc, Option.getD_some]
  rw [if_neg (show ¬((currentTime - c.last_reset_time) / 3600 ≥ cfg.resetIntervalHours)
        from by omega),
    if_pos hto, if_neg hrole1, setCounter_self st roomId msg.account_id c hc]

/-- C3.  Threshold crossing, for a non-command, non-`[toall]` message in an
enabled room from a sender whose counter `c` is inside its reset window:
if the updated stamp count reaches the stamp threshold (and the mention
count stays below its own threshold), exactly one downgrade-plus-notify pair
is issued within this very message-processing step, the stamp count is reset
to zero — so the next message counts stamps from zero — and the mention
count keeps its ordinary accounting value, untouched by the reset;
symmetrically for a mention-threshold crossing with the stamp count below
its threshold. -/
theorem threshold_exactly_once_C3 (cfg : Config) (currentTime : Nat)
    (enabled : List Nat) (roomId : Nat) (snap : Nat → Option String)
    (st : BotState) (msg : Message) (c : Counter)
    (h1 : pyStrip msg.body ≠ "/command OK") (h2 : pyStrip msg.body ≠ "/command NO")
    (hen : roomId ∈ enabled) (hto : pyContains msg.body "[toall]" = false)
    (hc : st.counters roomId msg.account_id = some c)
    (hfresh : (currentTime - c.last_reset_time) / 3600 < cfg.resetIntervalHours) :
    (c.stamps + count_emoticons_in_message msg.body ALL_EMOTICONS ≥ cfg.stampThreshold →
     c.mentions + count_personal_mentions msg.body < cfg.mentionThreshold →
      (processMessage cfg okAll currentTime enabled roomId snap st msg).trace
          = [Effect.changePermission roomId msg.account_id "readonly",
             Effect.postMessage roomId (stampNotice msg.account_id)]
      ∧ (processMessage cfg okAll currentTime enabled roomId snap st msg).st.counters
            roomId msg.account_id
          = some ⟨0, c.mentions + count_personal_mentions msg.body, c.last_reset_time⟩
      ∧ (processMessage cfg okAll currentTime enabled roomId snap st msg).err = false)
    ∧ (c.stamps + count_emoticons_in_message msg.body ALL_EMOTICONS < cfg.stampThreshold →
       c.mentions + count_personal_mentions msg.body ≥ cfg.mentionThreshold →
      (processMessage cfg okAll currentTime enabled roomId snap st msg).trace
          = [Effect.changePermission roomId msg.account_id "readonly",
             Effect.postMessage roomId (mentionNotice msg.account_id)]
      ∧ (processMessage cfg okAll currentTime enabled roomId snap st msg).st.counters
            roomId msg.account_id
          = some ⟨c.stamps + count_emoticons_in_message msg.body ALL_EMOTICONS, 0,
                  c.last_reset_time⟩
      ∧ (processMessage cfg okAll currentTime enabled roomId snap st msg).err = false) := by
  have hbase : processMessage cfg okAll currentTime enabled roomId snap st msg
      = stampStep cfg okAll roomId msg.account_id msg.body
          (setCounter st roomId msg.account_id c) c := by
    unfold processMessage; dsimp only
    rw [if_neg h1, if_neg h2, if_pos hen]
    unfold moderation; dsimp only
    simp only [hc, Option.getD_some]
    rw [if_neg (show ¬((currentTime - c.last_reset_time) / 3600 ≥ cfg.resetIntervalHours)
          from by omega),
      if_neg (show ¬(pyContains msg.body "[toall]" = true) from by rw [hto]; decide)]
  rw [hbase]
  constructor
  · intro hsge hmlt
    unfold stampStep; dsimp only
    rw [if_pos hsge]
    simp only [okAll, if_pos rfl]
    unfold mentionStep; dsimp only
    rw [if_neg (show ¬(c.mentions + count_personal_mentions msg.body ≥ cfg.mentionThreshold)
          from by omega)]
    refine ⟨rfl, ?_, rfl⟩
    simp [setCounter]
  · intro hslt hmge
    unfold stampStep; dsimp only
    rw [if_neg (show
          ¬(c.stamps + count_emoticons_in_message msg.body ALL_EMOTICONS ≥ cfg.stampThreshold)
          from by omega)]
    unfold mentionStep; dsimp only
    rw [if_pos hmge]
    simp only [okAll, if_pos rfl]
    refine ⟨rfl, ?_, rfl⟩
    simp [setCounter]

/-! ## Cursor lemmas -/

/-- Cursors of rooms other than the processed one are never modified by
`fetchAndProcess`. -/
theorem fetchAndProcess_cursor_other (cfg : Config) (ok : Effect → Bool) (currentTime : Nat)
    (enabled : List Nat) (fetchMessages : Nat → Nat → Option (List Message))
    (st : BotState) (roomId r' : Nat) (hne : r' ≠ roomId) :
    (fetchAndProcess cfg ok currentTime enabled fetchMessages st roomId).st.lastMessageId r'
      = st.lastMessageId r' := by
  unfold fetchAndProcess; dsimp only
  cases hf : fetchMessages roomId (st.lastMessageId roomId) with
  | none => rfl
  | some msgs =>
    dsimp only
    split
    · rfl
    · split
      · exact congrFun (processBatch_lastMessageId cfg ok currentTime enabled roomId
          (roomSnap st roomId) st msgs) r'
      · dsimp only
        rw [if_neg hne]
        exact congrFun (processBatch_lastMessageId cfg ok currentTime enabled roomId
          (roomSnap st roomId) st msgs) r'

/-- The cursor of the processed room is either left unchanged, or the fetch
returned a batch, no exception escaped the batch, and the cursor was set to
the id of the batch's last message. -/
theorem fetchAndProcess_cursor_cases (cfg : Config) (ok : Effect → Bool) (currentTime : Nat)
    (enabled : List Nat) (fetchMessages : Nat → Nat → Option (List Message))
    (st : BotState) (roomId : Nat) :
    (fetchAndProcess cfg ok currentTime enabled fetchMessages st roomId).st.lastMessageId roomId
        = st.lastMessageId roomId
    ∨ ∃ msgs mlast, fetchMessages roomId (st.lastMessageId roomId) = some msgs
        ∧ msgs.getLast? = some mlast
        ∧ (fetchAndProcess cfg ok currentTime enabled fetchMessages st roomId).err = false
        ∧ (fetchAndProcess cfg ok currentTime enabled fetchMessages st roomId).st.lastMessageId
            roomId = mlast.message_id := by
  unfold fetchAndProcess; dsimp only
  cases hf : fetchMessages roomId (st.lastMessageId roomId) with
  | none => exact Or.inl rfl
  | some msgs =>
    dsimp only
    split
    · exact Or.inl rfl
    · rename_i hne
      have hnil : msgs ≠ [] := by
        intro h
        rw [h] at hne
        exact hne rfl
      obtain ⟨mlast, hl⟩ : ∃ a, msgs.getLast? = some a := by
        cases hgl : msgs.getLast? with
        | none => exact absurd (List.getLast?_eq_none_iff.mp hgl) hnil
        | some a => exact ⟨a, rfl⟩
      split
      · exact Or.inl (congrFun (processBatch_lastMessageId cfg ok currentTime enabled roomId
          (roomSnap st roomId) st msgs) roomId)
      · refine Or.inr ⟨msgs, mlast, rfl, hl, rfl, ?_⟩
        dsimp only
        rw [if_pos rfl, hl]

/-- A fetch that returns the empty list leaves the state untouched
(in particular the cursor). -/
theorem fetchAndProcess_empty (cfg : Config) (ok : Effect → Bool) (currentTime : Nat)
    (enabled : List Nat) (fetchMessages : Nat → Nat → Option (List Message))
    (st : BotState) (roomId : Nat)
    (hf : fetchMessages roomId (st.lastMessageId roomId) = some []) :
    fetchAndProcess cfg ok currentTime enabled fetchMessages st roomId = ⟨st, [], false⟩ := by
  unfold fetchAndProcess; dsimp only
  rw [hf]
  rfl

/-- `processRoom` delegates to `fetchAndProcess` on a state whose cursor
dictionary is the input one (a membership refresh touches only `roles`). -/
theorem processRoom_eq_fetchAndProcess (cfg : Config) (ok : Effect → Bool) (currentTime : Nat)
    (enabled : List Nat) (fetchMembers : Nat → Option (List (Nat × String)))
    (fetchMessages : Nat → Nat → Option (List Message)) (st : BotState) (roomId : Nat) :
    ∃ st', st'.lastMessageId = st.lastMessageId
      ∧ (processRoom cfg ok currentTime enabled fetchMembers fetchMessages st roomId
            = fetchAndProcess cfg ok currentTime enabled fetchMessages st' roomId
         ∨ processRoom cfg ok currentTime enabled fetchMembers fetchMessages st roomId
            = ⟨st, [], false⟩) := by
  unfold processRoom
  split
  · cases hm : fetchMembers roomId with
    | none => exact ⟨st, rfl, Or.inr rfl⟩
    | some mems =>
      refine ⟨{ st with roles := fun r =>
        if r = roomId then some ⟨buildRoleDict mems, currentTime⟩ else st.roles r },
        rfl, Or.inl rfl⟩
  · exact ⟨st, rfl, Or.inl rfl⟩

/-- Per-room monotonicity of every cursor, assuming the `get_messages`
interface contract (returned ids strictly exceed the requested lower
bound). -/
theorem processRoom_cursor_mono (cfg : Config) (ok : Effect → Bool) (currentTime : Nat)
    (enabled : List Nat) (fetchMembers : Nat → Option (List (Nat × String)))
    (fetchMessages : Nat → Nat → Option (List Message))
    (hcontract : ∀ r lastId msgs, fetchMessages r lastId = some msgs →
        ∀ m ∈ msgs, lastId < m.message_id)
    (st : BotState) (roomId r' : Nat) :
    st.lastMessageId r'
      ≤ (processRoom cfg ok currentTime enabled fetchMembers fetchMessages st roomId).st.lastMessageId r' := by
  obtain ⟨st', hcur, hpr | hpr⟩ :=
    processRoom_eq_fetchAndProcess cfg ok currentTime enabled fetchMembers fetchMessages st roomId
  · rw [hpr]
    by_cases hr : r' = roomId
    · subst hr
      rcases fetchAndProcess_cursor_cases cfg ok currentTime enabled fetchMessages st' r' with
        h | ⟨msgs, mlast, hf, hl, _, h⟩
      · rw [h, hcur]
      · rw [h]
        have hlt := hcontract r' (st'.lastMessageId r') msgs hf mlast
          (List.mem_of_mem_getLast? hl)
        rw [hcur] at hlt
        exact Nat.le_of_lt hlt
    · rw [fetchAndProcess_cursor_other cfg ok currentTime enabled fetchMessages st' roomId r' hr,
        hcur]
  · rw [hpr]

/-- Cycle-level monotonicity of every cursor. -/
theorem runRooms_cursor_mono (cfg : Config) (ok : Effect → Bool) (currentTime : Nat)
    (enabled : List Nat) (fetchMembers : Nat → Option (List (Nat × String)))
    (fetchMessages : Nat → Nat → Option (List Message))
    (hcontract : ∀ r lastId msgs, fetchMessages r lastId = some msgs →
        ∀ m ∈ msgs, lastId < m.message_id)
    (rooms : List Nat) (st : BotState) (r' : Nat) :
    st.lastMessageId r'
      ≤ (runRooms cfg ok currentTime enabled fetchMembers fetchMessages st rooms).st.lastMessageId r' := by
  induction rooms generalizing st with
  | nil => exact Nat.le_refl _
  | cons r rs ih =>
    unfold runRooms; dsimp only
    split
    · exact processRoom_cursor_mono cfg ok currentTime enabled fetchMembers fetchMessages
        hcontract st r r'
    · exact Nat.le_trans
        (processRoom_cursor_mono cfg ok currentTime enabled fetchMembers fetchMessages
          hcontract st r r')
        (ih _)

/-- C2.  Cursor discipline, under the `get_messages` interface contract
(every returned message id strictly exceeds the requested lower bound):
message processing itself never writes the cursor (so the cursor moves only
after the whole batch is done, all-or-nothing); per room, either the cursor
is left unchanged, or the batch was fetched, fully processed without an
escaping exception, and the cursor was set to the id of the batch's last
message; an empty fetch leaves every cursor unchanged; and across a whole
cycle every room's cursor is monotonically non-decreasing. -/
theorem cursor_invariants_C2 (cfg : Config) (ok : Effect → Bool) (currentTime : Nat)
    (fetchMembers : Nat → Option (List (Nat × String)))
    (fetchMessages : Nat → Nat → Option (List Message))
    (hcontract : ∀ r lastId msgs, fetchMessages r lastId = some msgs →
        ∀ m ∈ msgs, lastId < m.message_id) :
    (∀ enabled roomId snap st msgs,
      (processBatch cfg ok currentTime enabled roomId snap st msgs).st.lastMessageId
        = st.lastMessageId)
    ∧ (∀ enabled st roomId,
        (processRoom cfg ok currentTime enabled fetchMembers fetchMessages st roomId).st.lastMessageId roomId
            = st.lastMessageId roomId
        ∨ ∃ msgs mlast, fetchMessages roomId (st.lastMessageId roomId) = some msgs
            ∧ msgs.getLast? = some mlast
            ∧ (processRoom cfg ok currentTime enabled fetchMembers fetchMessages st roomId).err = false
            ∧ (processRoom cfg ok currentTime enabled fetchMembers fetchMessages st roomId).st.lastMessageId roomId
                = mlast.message_id)
    ∧ (∀ enabled st roomId,
        fetchMessages roomId (st.lastMessageId roomId) = some [] →
        (processRoom cfg ok currentTime enabled fetchMembers fetchMessages st roomId).st.lastMessageId
          = st.lastMessageId)
    ∧ (∀ rooms st r', st.lastMessageId r'
        ≤ (runCycle cfg ok currentTime fetchMembers fetchMessages rooms st).st.lastMessageId r') := by
  refine ⟨fun enabled roomId snap st msgs =>
      processBatch_lastMessageId cfg ok currentTime enabled roomId snap st msgs,
    ?_, ?_, ?_⟩
  · intro enabled st roomId
    obtain ⟨st', hcur, hpr | hpr⟩ := processRoom_eq_fetchAndProcess cfg ok currentTime enabled
      fetchMembers fetchMessages st roomId
    · rw [hpr]
      rcases fetchAndProcess_cursor_cases cfg ok currentTime enabled fetchMessages st' roomId with
        h | ⟨msgs, mlast, hf, hl, herr, h⟩
      · exact Or.inl (by rw [h, hcur])
      · rw [hcur] at hf
        exact Or.inr ⟨msgs, mlast, hf, hl, herr, h⟩
    · rw [hpr]
      exact Or.inl rfl
  · intro enabled st roomId hf
    obtain ⟨st', hcur, hpr | hpr⟩ := processRoom_eq_fetchAndProcess cfg ok currentTime enabled
      fetchMembers fetchMessages st roomId
    · rw [hpr, fetchAndProcess_empty cfg ok currentTime enabled fetchMessages st' roomId
        (by rw [hcur]; exact hf)]
      exact hcur
    · rw [hpr]
  · intro rooms st r'
    exact runRooms_cursor_mono cfg ok currentTime st.store fetchMembers fetchMessages
      hcontract rooms st r'

/-! ## C1: error handling granularity of moderation actions

In the source, the moderation-action calls (lines 253-285) are not wrapped
in any `try` of their own: a `TransportError` raised by a notification post
propagates out of the message loop, past the cursor update at line 288, to
the cycle-level `except` at line 290.  (A permission-change call can never
raise at all: `change_user_permission` is a stub returning `True`.)  The
concrete data below exhibits this: room 1 is enabled, member 7 posts
`[toall]` (message 10) and sender 8 then posts `:)` (message 11); the
notification post for message 10 raises. -/

def cxCfg : Config := ⟨3, 10, 24⟩

def cxRoles : RoleSnap := ⟨buildRoleDict [(7, "member"), (9, "admin")], 0⟩

def cxSt : BotState :=
  { lastMessageId := fun _ => 5
    roles := fun r => if r = 1 then some cxRoles else none
    counters := fun _ _ => none
    store := [1] }

def cxOk : Effect → Bool := fun e => decide (e ≠ Effect.postMessage 1 (toallNotice 7))

def cxFetchMembers : Nat → Option (List (Nat × String)) := fun _ => none

def cxMsg1 : Message := ⟨10, 7, "[toall]"⟩

def cxMsg2 : Message := ⟨11, 8, ":)"⟩

def cxFetchMessages : Nat → Nat → Option (List Message) := fun _ _ => some [cxMsg1, cxMsg2]

/-- C1 counterexample.  With the failing notification post, the room-level
run reports an escaped exception, the cursor stays at 5 instead of being
advanced to 11, message 11 is never processed (sender 8 still has no
counter), and the rest of the cycle's rooms are skipped — whereas under an
all-success oracle the same batch ends with the cursor at 11 and sender 8's
stamp counted.  So a `TransportError` in a moderation action is *not* caught
at message granularity. -/
theorem moderation_error_not_per_message_C1_cx :
    (processRoom cxCfg cxOk 0 cxSt.store cxFetchMembers cxFetchMessages cxSt 1).err = true
    ∧ (processRoom cxCfg cxOk 0 cxSt.store cxFetchMembers cxFetchMessages cxSt 1).st.lastMessageId 1
        = 5
    ∧ (processRoom cxCfg cxOk 0 cxSt.store cxFetchMembers cxFetchMessages cxSt 1).st.counters 1 8
        = none
    ∧ (runRooms cxCfg cxOk 0 cxSt.store cxFetchMembers cxFetchMessages cxSt [1, 2]).err = true
    ∧ (processRoom cxCfg okAll 0 cxSt.store cxFetchMembers cxFetchMessages cxSt 1).err = false
    ∧ (processRoom cxCfg okAll 0 cxSt.store cxFetchMembers cxFetchMessages cxSt 1).st.lastMessageId 1
        = 11
    ∧ (processRoom cxCfg okAll 0 cxSt.store cxFetchMembers cxFetchMessages cxSt 1).st.counters 1 8
        = some ⟨1, 0, 0⟩ := by
  exact ⟨by decide, by decide, by decide, by decide, by decide, by decide, by decide⟩

/-- C1 (amended).  A `TransportError` raised by a moderation-action
notification post is caught only by the cycle-level handler: the batch stops
at the failing message (nothing after it runs), the room's cursor is *not*
advanced, and the remaining rooms of the cycle are skipped.
Permission-change calls never raise, because `change_user_permission` is a
stub that always succeeds. -/
theorem moderation_error_aborts_cycle_C1 (cfg : Config) (ok : Effect → Bool)
    (currentTime : Nat) (enabled : List Nat)
    (fetchMembers : Nat → Option (List (Nat × String)))
    (fetchMessages : Nat → Nat → Option (List Message)) (st : BotState) (roomId : Nat)
    (m : Message) (ms : List Message)
    (hnodue : refreshDue currentTime st roomId = false)
    (hfetch : fetchMessages roomId (st.lastMessageId roomId) = some (m :: ms))
    (herr : (processMessage cfg ok currentTime enabled roomId (roomSnap st roomId) st m).err
      = true) :
    processRoom cfg ok currentTime enabled fetchMembers fetchMessages st roomId
      = ⟨(processMessage cfg ok currentTime enabled roomId (roomSnap st roomId) st m).st,
         (processMessage cfg ok currentTime enabled roomId (roomSnap st roomId) st m).trace,
         true⟩
    ∧ (processMessage cfg ok currentTime enabled roomId (roomSnap st roomId) st m).st.lastMessageId
        = st.lastMessageId
    ∧ ∀ rs, runRooms cfg ok currentTime enabled fetchMembers fetchMessages st (roomId :: rs)
        = ⟨(processMessage cfg ok currentTime enabled roomId (roomSnap st roomId) st m).st,
           (processMessage cfg ok currentTime enabled roomId (roomSnap st roomId) st m).trace,
           true⟩ := by
  have hbatch : processBatch cfg ok currentTime enabled roomId (roomSnap st roomId) st (m :: ms)
      = ⟨(processMessage cfg ok currentTime enabled roomId (roomSnap st roomId) st m).st,
         (processMessage cfg ok currentTime enabled roomId (roomSnap st roomId) st m).trace,
         true⟩ := by
    unfold processBatch; dsimp only
    rw [if_pos herr]
  have hpr : processRoom cfg ok currentTime enabled fetchMembers fetchMessages st roomId
      = ⟨(processMessage cfg ok currentTime enabled roomId (roomSnap st roomId) st m).st,
         (processMessage cfg ok currentTime enabled roomId (roomSnap st roomId) st m).trace,
         true⟩ := by
    unfold processRoom
    rw [if_neg (show ¬(refreshDue currentTime st roomId = true) from by rw [hnodue]; decide)]
    unfold fetchAndProcess; dsimp only
    rw [hfetch]
    simp only [List.isEmpty_cons, Bool.false_eq_true, if_false, hbatch, if_true]
  refine ⟨hpr, processMessage_lastMessageId cfg ok currentTime enabled roomId
    (roomSnap st roomId) st m, fun rs => ?_⟩
  conv_lhs => unfold runRooms
  rw [hpr]
  rfl

/-! ## Concrete witness data -/

def wCfg : Config := ⟨3, 10, 24⟩

def wSnap : Nat → Option String := buildRoleDict [(7, "admin"), (8, "member")]

def wSt : BotState :=
  { lastMessageId := fun _ => 0
    roles := fun r => if r = 1 then some ⟨wSnap, 0⟩ else none
    counters := fun r _ => if r = 1 then some ⟨2, 0, 0⟩ else none
    store := [] }

def wFetchMembers : Nat → Option (List (Nat × String)) := fun _ => none

def wFetchMessages : Nat → Nat → Option (List Message) :=
  fun _ lastId => some [⟨lastId + 1, 8, ":)"⟩]

def wBody10To : String :=
  "[To:1][To:1][To:1][To:1][To:1][To:1][To:1][To:1][To:1][To:1]"

/-- Witness for `moderation_error_aborts_cycle_C1` at the counterexample
data. -/
theorem moderation_error_aborts_cycle_C1_witness :
    processRoom cxCfg cxOk 0 [1] cxFetchMembers cxFetchMessages cxSt 1
      = ⟨(processMessage cxCfg cxOk 0 [1] 1 (roomSnap cxSt 1) cxSt cxMsg1).st,
         (processMessage cxCfg cxOk 0 [1] 1 (roomSnap cxSt 1) cxSt cxMsg1).trace, true⟩
    ∧ (processMessage cxCfg cxOk 0 [1] 1 (roomSnap cxSt 1) cxSt cxMsg1).st.lastMessageId
        = cxSt.lastMessageId
    ∧ runRooms cxCfg cxOk 0 [1] cxFetchMembers cxFetchMessages cxSt [1, 5]
        = ⟨(processMessage cxCfg cxOk 0 [1] 1 (roomSnap cxSt 1) cxSt cxMsg1).st,
           (processMessage cxCfg cxOk 0 [1] 1 (roomSnap cxSt 1) cxSt cxMsg1).trace, true⟩ := by
  obtain ⟨h1, h2, h3⟩ := moderation_error_aborts_cycle_C1 cxCfg cxOk 0 [1]
    cxFetchMembers cxFetchMessages cxSt 1 cxMsg1 [cxMsg2] (by decide) rfl (by decide)
  exact ⟨h1, h2, h3 [5]⟩

/-- Witness for `cursor_invariants_C2` with a fetch that always returns one
message just above the requested lower bound. -/
theorem cursor_invariants_C2_witness :
    (processBatch wCfg okAll 0 [1] 1 wSnap wSt [⟨1, 8, ":)"⟩]).st.lastMessageId
        = wSt.lastMessageId
    ∧ wSt.lastMessageId 2 ≤ (runCycle wCfg okAll 0 wFetchMembers wFetchMessages [1] wSt).st.lastMessageId 2 := by
  obtain ⟨h1, _, _, h4⟩ := cursor_invariants_C2 wCfg okAll 0 wFetchMembers wFetchMessages
    (by
      intro r lastId msgs h m hm
      injection h with h
      subst h
      simp only [List.mem_singleton] at hm
      subst hm
      show lastId < lastId + 1
      omega)
  exact ⟨h1 [1] 1 wSnap wSt [⟨1, 8, ":)"⟩], h4 [1] wSt 2⟩

/-- Witness for `threshold_exactly_once_C3`: sender 8 holds counter
`⟨2, 0, 0⟩` under thresholds `⟨3, 10, 24⟩`; the body `:)` crosses the stamp
threshold (2+1 = 3), and a body of ten `[To:1]` tags crosses the mention
threshold (0+10 = 10) while its stamp count stays at 2. -/
theorem threshold_exactly_once_C3_witness :
    ((processMessage wCfg okAll 0 [1] 1 wSnap wSt ⟨20, 8, ":)"⟩).trace
        = [Effect.changePermission 1 8 "readonly", Effect.postMessage 1 (stampNotice 8)]
      ∧ (processMessage wCfg okAll 0 [1] 1 wSnap wSt ⟨20, 8, ":)"⟩).st.counters 1 8
        = some ⟨0, 0, 0⟩
      ∧ (processMessage wCfg okAll 0 [1] 1 wSnap wSt ⟨20, 8, ":)"⟩).err = false)
    ∧ ((processMessage wCfg okAll 0 [1] 1 wSnap wSt ⟨21, 8, wBody10To⟩).trace
        = [Effect.changePermission 1 8 "readonly", Effect.postMessage 1 (mentionNotice 8)]
      ∧ (processMessage wCfg okAll 0 [1] 1 wSnap wSt ⟨21, 8, wBody10To⟩).st.counters 1 8
        = some ⟨2, 0, 0⟩
      ∧ (processMessage wCfg okAll 0 [1] 1 wSnap wSt ⟨21, 8, wBody10To⟩).err = false) := by
  have hstamp := (threshold_exactly_once_C3 wCfg 0 [1] 1 wSnap wSt ⟨20, 8, ":)"⟩ ⟨2, 0, 0⟩
    (by decide) (by decide) (by decide) (by decide) (by decide) (by decide)).1
    (by decide) (by decide)
  have hmention := (threshold_exactly_once_C3 wCfg 0 [1] 1 wSnap wSt ⟨21, 8, wBody10To⟩ ⟨2, 0, 0⟩
    (by decide) (by decide) (by decide) (by decide) (by decide) (by decide)).2
    (by decide) (by decide)
  exact ⟨hstamp, hmention⟩

/-- Witness for `broadcast_rule_C4`: member 8 posting `[toall]` is downgraded
and notified; admin 7 posting `[toall]` triggers nothing. -/
theorem broadcast_rule_C4_witness :
    processMessage wCfg okAll 0 [1] 1 wSnap wSt ⟨22, 8, "[toall]"⟩
      = ⟨wSt, [Effect.changePermission 1 8 "readonly",
               Effect.postMessage 1 (toallNotice 8)], false⟩
    ∧ processMessage wCfg okAll 0 [1] 1 wSnap wSt ⟨23, 7, "[toall]"⟩
      = ⟨wSt, [], false⟩ := by
  have hmem := (broadcast_rule_C4 wCfg 0 [1] 1 wSnap wSt ⟨22, 8, "[toall]"⟩ ⟨2, 0, 0⟩
    (by decide) (by decide) (by decide) (by decide) (by decide) (by decide)).1 (by decide)
  have hadm := (broadcast_rule_C4 wCfg 0 [1] 1 wSnap wSt ⟨23, 7, "[toall]"⟩ ⟨2, 0, 0⟩
    (by decide) (by decide) (by decide) (by decide) (by decide) (by decide)).2 (by decide)
  exact ⟨hmem, hadm⟩

/-- Witness for `commands_before_gate_C5`: a `/command OK` message leaves the
counters alone; a plain message in a room outside the enabled snapshot is a
no-op; an admin `/command OK` in such a room still inserts the record. -/
theorem commands_before_gate_C5_witness :
    (processMessage wCfg okAll 0 [] 1 wSnap wSt ⟨24, 7, "/command OK"⟩).st.counters
        = wSt.counters
    ∧ processMessage wCfg okAll 0 [] 1 wSnap wSt ⟨25, 8, ":)"⟩ = ⟨wSt, [], false⟩
    ∧ (processMessage wCfg okAll 0 [] 1 wSnap wSt ⟨24, 7, "/command OK"⟩).st.store
        = wSt.store ++ [1] := by
  obtain ⟨h1, h2, h3⟩ := commands_before_gate_C5 wCfg okAll 0 [] 1 wSnap wSt
    ⟨24, 7, "/command OK"⟩
  obtain ⟨_, h2', _⟩ := commands_before_gate_C5 wCfg okAll 0 [] 1 wSnap wSt ⟨25, 8, ":)"⟩
  exact ⟨h1 (Or.inl (by decide)),
    h2' (by decide) (by decide) (by decide),
    h3 (by decide) (by decide) (by decide) (by decide)⟩

/-- Witness for `enable_idempotent_C7` with admin 7 in room 1 and an empty
store. -/
theorem enable_idempotent_C7_witness :
    (processMessage wCfg okAll 0 [1] 1 wSnap wSt ⟨26, 7, "/command OK"⟩).st.store
        = wSt.store ++ [1]
    ∧ (processMessage wCfg okAll 0 [1] 1 wSnap wSt ⟨26, 7, "/command OK"⟩).trace
        = [Effect.postMessage 1 enabledNotice]
    ∧ (processMessage wCfg okAll 0 [1] 1 wSnap
          (processMessage wCfg okAll 0 [1] 1 wSnap wSt ⟨26, 7, "/command OK"⟩).st
          ⟨26, 7, "/command OK"⟩).st.store
        = (processMessage wCfg okAll 0 [1] 1 wSnap wSt ⟨26, 7, "/command OK"⟩).st.store
    ∧ (processMessage wCfg okAll 0 [1] 1 wSnap
          (processMessage wCfg okAll 0 [1] 1 wSnap wSt ⟨26, 7, "/command OK"⟩).st
          ⟨26, 7, "/command OK"⟩).trace
        = [Effect.postMessage 1 alreadyEnabledNotice]
    ∧ (processMessage wCfg okAll 0 [1] 1 wSnap wSt ⟨27, 7, "/command NO"⟩).st.store = wSt.store
    ∧ (processMessage wCfg okAll 0 [1] 1 wSnap wSt ⟨27, 7, "/command NO"⟩).trace
        = [Effect.postMessage 1 disabledNotice]
    ∧ (processMessage wCfg okAll 0 [1] 1 wSnap wSt ⟨27, 7, "/command NO"⟩).err = false := by
  obtain ⟨h1, h2, h3, h4, h5⟩ := enable_idempotent_C7 wCfg 0 [1] 1 wSnap wSt
    ⟨26, 7, "/command OK"⟩ (by decide) (by decide) (by decide)
  obtain ⟨h6, h7, h8⟩ := h5 ⟨27, 7, "/command NO"⟩ (by decide) (by decide)
  exact ⟨h1, h2, h3, h4, h6, h7, h8⟩

/-- Witness for `refresh_failure_isolation_C8`: room 2 has no cached
snapshot, the member fetch raises, the room is skipped and the cycle goes
on. -/
theorem refresh_failure_isolation_C8_witness :
    processRoom wCfg okAll 0 [1] wFetchMembers wFetchMessages wSt 2 = ⟨wSt, [], false⟩
    ∧ runRooms wCfg okAll 0 [1] wFetchMembers wFetchMessages wSt [2]
        = runRooms wCfg okAll 0 [1] wFetchMembers wFetchMessages wSt [] := by
  obtain ⟨h1, h2⟩ := refresh_failure_isolation_C8 wCfg okAll 0 [1] wFetchMembers
    wFetchMessages wSt 2 (by decide) rfl
  exact ⟨h1, h2 []⟩

/-- Witness for `gate_snapshot_C9`: room 1 outside the snapshot; the batch
holds an admin `/command OK` followed by a stamp-heavy message, and still no
counter moves and no permission change is issued. -/
theorem gate_snapshot_C9_witness :
    (processBatch wCfg okAll 0 [] 1 wSnap wSt
        [⟨30, 7, "/command OK"⟩, ⟨31, 8, ":) :) :)"⟩]).st.counters = wSt.counters
    ∧ ∀ e ∈ (processBatch wCfg okAll 0 [] 1 wSnap wSt
        [⟨30, 7, "/command OK"⟩, ⟨31, 8, ":) :) :)"⟩]).trace, isPermChange e = false := by
  exact gate_snapshot_C9 wCfg okAll 0 [] 1 wSnap (by decide)
    [⟨30, 7, "/command OK"⟩, ⟨31, 8, ":) :) :)"⟩] wSt

/-- Witness for `broadcast_unknown_role_C10`: sender 55 is absent from the
snapshot (role defaults to `unknown`), posts `[toall]`, and nothing
happens. -/
theorem broadcast_unknown_role_C10_witness :
    processMessage wCfg okAll 0 [1] 1 wSnap wSt ⟨28, 55, "[toall]"⟩ = ⟨wSt, [], false⟩ := by
  exact broadcast_unknown_role_C10 wCfg 0 [1] 1 wSnap wSt ⟨28, 55, "[toall]"⟩ ⟨2, 0, 0⟩
    (by decide) (by decide) (by decide) (by decide) (by decide) (by decide)
    (by decide) (by decide)

end Yuzubot
